import Mathlib

/-!
# Conversation State Manager — shallow embedding

A shallow embedding of the chat client's session/message state management
(the `HomePage` component): the client state, the HTTP responses each
handler consumes, and each event handler as a pure transition function
returning the new state together with the trace of API calls it issued and
the console-error log lines it produced.

JavaScript truthiness on identifiers (`!sessionId`, `!editingId`) is
modelled by `truthyId` on `Option Int`; `typeof x === "number"` checks are
modelled by `Option Int` being `some`; `err.message || "default"` is
modelled by `jsOr`.
-/

namespace ChatClient

/-- A chat session as returned by the server: `{ id, title, created }`. -/
structure Session where
  id : Int
  title : Option String
  created : Option String
deriving Repr, DecidableEq

/-- A chat message: `{ id, session, role, text, created }`. `id` is `none`
when the JSON payload carries no numeric id (`typeof m.id !== "number"`). -/
structure Message where
  id : Option Int
  session : Int
  role : String
  text : String
  created : Option String
deriving Repr, DecidableEq

/-- The component's state variables, one field per `useState` hook. -/
structure ClientState where
  sessions : List Session
  activeSessionId : Option Int
  history : List Message
  loading : Bool
  error : String
  chatInput : String
  chatLoading : Bool
  editingId : Option Int
  editingOriginalText : String
deriving Repr, DecidableEq

/-- Outcome of one `fetch`: a 2xx response with parsed body, a non-2xx
response (status, statusText, error body text), or a rejected promise
(network error) carrying `err.message`. -/
inductive HttpResp (α : Type) where
  | success (body : α)
  | failure (status : Nat) (statusText : String) (errText : String)
  | netError (msg : String)
deriving Repr, DecidableEq

/-- One API call, recorded with the request data that the handler sent. -/
inductive ApiCall where
  | listSessions
  | createSession
  | deleteSession (id : Int)
  | listMessages (session : Int)
  | chat (message : String) (session : Int)
  | patchMessage (id : Int) (text : String)
  | regenerate (id : Option Int)
  | deleteMessage (id : Int)
deriving Repr, DecidableEq

/-- Result of running one handler: the new state, the API calls issued in
order, and the `console.error` lines emitted. -/
structure StepResult where
  state : ClientState
  calls : List ApiCall
  logs : List String
deriving Repr, DecidableEq

/-- JavaScript truthiness of a numeric id that may be absent:
`null`/`undefined` and `0` are falsy. -/
def truthyId : Option Int → Bool
  | none => false
  | some n => n != 0

/-- JavaScript `a || b` on strings: `b` when `a` is empty. -/
def jsOr (a b : String) : String := if a = "" then b else a

/-- The blank-guard `!text.trim()`: true exactly when the text is empty or
whitespace-only (then `trim` yields the empty, falsy string). -/
def isBlank (s : String) : Bool := s.data.all Char.isWhitespace

/-- Whether a response was a 2xx (`res.ok`). -/
def isOk {α : Type} : HttpResp α → Bool
  | .success _ => true
  | _ => false

/-- `Failed to create session: st stx - body` (thrown by both session
creation sites). -/
def failedCreateSessionMsg (status : Nat) (statusText errText : String) : String :=
  s!"Failed to create session: {status} {statusText} - {errText}"

/-- `Chat request failed: st stx - body`. -/
def chatRequestFailedMsg (status : Nat) (statusText errText : String) : String :=
  s!"Chat request failed: {status} {statusText} - {errText}"

/-- `Update failed: st stx - body`. -/
def updateFailedMsg (status : Nat) (statusText errText : String) : String :=
  s!"Update failed: {status} {statusText} - {errText}"

/-- `Failed to fetch messages: st`. -/
def failedFetchMessagesMsg (status : Nat) : String :=
  s!"Failed to fetch messages: {status}"

/-- `Failed to fetch sessions: st`. -/
def failedFetchSessionsMsg (status : Nat) : String :=
  s!"Failed to fetch sessions: {status}"

/-- `Failed to delete message: st`. -/
def failedDeleteMessageMsg (status : Nat) : String :=
  s!"Failed to delete message: {status}"

/-- `Failed to delete session: st stx - body`. -/
def failedDeleteSessionMsg (status : Nat) (statusText errText : String) : String :=
  s!"Failed to delete session: {status} {statusText} - {errText}"

/--
`fetchMessages(sessionId)`: no-op when `sessionId` is falsy; otherwise set
`loading`, clear `error`, GET `/messages/?session=id`, and on success
replace `history` with the returned list; failures are caught here and set
`error`; `loading` is reset in the `finally`.
-/
def fetchMessages (resp : HttpResp (List Message)) (sessionId : Option Int)
    (s : ClientState) : StepResult :=
  if truthyId sessionId then
    let s1 : ClientState := { s with loading := true, error := "" }
    let calls := [ApiCall.listMessages (sessionId.getD 0)]
    match resp with
    | .success data =>
        ⟨{ s1 with history := data, loading := false }, calls, []⟩
    | .failure status _ _ =>
        ⟨{ s1 with error := jsOr (failedFetchMessagesMsg status) "Failed to fetch messages",
                   loading := false }, calls, []⟩
    | .netError m =>
        ⟨{ s1 with error := jsOr m "Failed to fetch messages", loading := false }, calls, []⟩
  else ⟨s, [], []⟩

/-- The tail of `sendNewChatMessage` once a session id is in hand: POST
`/chat/` with `{message: chatInput, session}`; on success reload the
history for that session (via `fetchMessages`, whose failures are caught
internally) and clear the composer; on failure set `error`; always reset
`chatLoading`. -/
def sendChatAndReload (chatResp : HttpResp Unit) (msgsResp : HttpResp (List Message))
    (sessionId : Int) (preCalls : List ApiCall) (s : ClientState) : StepResult :=
  let calls := preCalls ++ [ApiCall.chat s.chatInput sessionId]
  match chatResp with
  | .success _ =>
      let r := fetchMessages msgsResp (some sessionId) s
      ⟨{ r.state with chatInput := "", chatLoading := false }, calls ++ r.calls, r.logs⟩
  | .failure status statusText errText =>
      ⟨{ s with error := jsOr (chatRequestFailedMsg status statusText errText)
                  "Failed to send chat message",
                chatLoading := false }, calls, []⟩
  | .netError m =>
      ⟨{ s with error := jsOr m "Failed to send chat message", chatLoading := false },
        calls, []⟩

/--
`sendNewChatMessage()`: no-op on blank composer text. Otherwise set
`chatLoading`, clear `error`; when no session is active (falsy
`activeSessionId`), POST `/sessions/` first and on success make the new
session active and prepend it to the list; then POST `/chat/` and on
success reload history and clear the composer. Any thrown failure is
caught and sets `error`; `chatLoading` is reset in the `finally`.
-/
def sendNewChatMessage (createResp : HttpResp Session) (chatResp : HttpResp Unit)
    (msgsResp : HttpResp (List Message)) (s : ClientState) : StepResult :=
  if isBlank s.chatInput then ⟨s, [], []⟩
  else
    let s1 : ClientState := { s with chatLoading := true, error := "" }
    if truthyId s.activeSessionId then
      sendChatAndReload chatResp msgsResp (s.activeSessionId.getD 0) [] s1
    else
      match createResp with
      | .success created =>
          let s2 : ClientState := { s1 with activeSessionId := some created.id,
                                            sessions := created :: s1.sessions }
          sendChatAndReload chatResp msgsResp created.id [ApiCall.createSession] s2
      | .failure status statusText errText =>
          ⟨{ s1 with error := jsOr (failedCreateSessionMsg status statusText errText)
                       "Failed to send chat message",
                     chatLoading := false }, [ApiCall.createSession], []⟩
      | .netError m =>
          ⟨{ s1 with error := jsOr m "Failed to send chat message", chatLoading := false },
            [ApiCall.createSession], []⟩

/--
`handleCreateNewChat()`: clear `error`, POST `/sessions/`; on success make
the created session active, prepend it to the list, clear `history` and
the composer text; on failure set `error`.
-/
def handleCreateNewChat (resp : HttpResp Session) (s : ClientState) : StepResult :=
  let s1 : ClientState := { s with error := "" }
  match resp with
  | .success created =>
      ⟨{ s1 with activeSessionId := some created.id,
                 sessions := created :: s1.sessions,
                 history := [],
                 chatInput := "" }, [ApiCall.createSession], []⟩
  | .failure status statusText errText =>
      ⟨{ s1 with error := jsOr (failedCreateSessionMsg status statusText errText)
                   "Failed to create new chat" }, [ApiCall.createSession], []⟩
  | .netError m =>
      ⟨{ s1 with error := jsOr m "Failed to create new chat" }, [ApiCall.createSession], []⟩

/--
`saveEditedMessage()`: no-op unless `editingId` is truthy and the composer
text is non-blank. PATCH the message text; on failure set `error` and
stop. On success splice the server-returned message into `history` by id,
then POST `regenerate` inside an inner `try`: on regenerate success reload
the history for `updated.session`; on regenerate failure (non-2xx or
network) only `console.error`. Afterwards clear edit mode and the
composer; `chatLoading` resets in the `finally`.
-/
def saveEditedMessage (patchResp : HttpResp Message) (regenResp : HttpResp Unit)
    (msgsResp : HttpResp (List Message)) (s : ClientState) : StepResult :=
  if truthyId s.editingId = false then ⟨s, [], []⟩
  else if isBlank s.chatInput then ⟨s, [], []⟩
  else
    let newText := s.chatInput
    let eid := s.editingId.getD 0
    let s1 : ClientState := { s with chatLoading := true, error := "" }
    match patchResp with
    | .failure status statusText errText =>
        ⟨{ s1 with error := jsOr (updateFailedMsg status statusText errText)
                     "Failed to update message",
                   chatLoading := false }, [ApiCall.patchMessage eid newText], []⟩
    | .netError m =>
        ⟨{ s1 with error := jsOr m "Failed to update message", chatLoading := false },
          [ApiCall.patchMessage eid newText], []⟩
    | .success updated =>
        let s2 : ClientState :=
          { s1 with history := s1.history.map fun m => if m.id = updated.id then updated else m }
        let inner : StepResult :=
          match regenResp with
          | .success _ =>
              let r := fetchMessages msgsResp (some updated.session) s2
              ⟨r.state, ApiCall.regenerate updated.id :: r.calls, r.logs⟩
          | .failure status _ errText =>
              ⟨s2, [ApiCall.regenerate updated.id],
                [s!"Regenerate failed: {status} {errText}"]⟩
          | .netError m =>
              ⟨s2, [ApiCall.regenerate updated.id], [s!"Regenerate request error: {m}"]⟩
        ⟨{ inner.state with editingId := none, editingOriginalText := "", chatInput := "",
                            chatLoading := false },
          ApiCall.patchMessage eid newText :: inner.calls, inner.logs⟩

/--
`handleDeleteMessage(id)`: no-op when `id` is not a number or the user does
not confirm. Clear `error`, DELETE the message; HTTP success or status 204
removes that id from `history`; otherwise set `error`.
-/
def handleDeleteMessage (id : Option Int) (confirmed : Bool) (resp : HttpResp Unit)
    (s : ClientState) : StepResult :=
  match id with
  | none => ⟨s, [], []⟩
  | some n =>
    if confirmed then
      let s1 : ClientState := { s with error := "" }
      match resp with
      | .success _ =>
          ⟨{ s1 with history := s1.history.filter fun m => m.id != some n },
            [ApiCall.deleteMessage n], []⟩
      | .failure status _ _ =>
          if status == 204 then
            ⟨{ s1 with history := s1.history.filter fun m => m.id != some n },
              [ApiCall.deleteMessage n], []⟩
          else
            ⟨{ s1 with error := jsOr (failedDeleteMessageMsg status) "Failed to delete message" },
              [ApiCall.deleteMessage n], []⟩
      | .netError m =>
          ⟨{ s1 with error := jsOr m "Failed to delete message" }, [ApiCall.deleteMessage n], []⟩
    else ⟨s, [], []⟩

/--
The session-delete `onClick` handler: confirm, DELETE `/sessions/{id}/`;
HTTP success or 204 removes the session from the list and, when it was the
active one, also clears `activeSessionId` and `history`; failure is
`console.error`ed and sets `error`. Note: this handler never clears
`error` at the start of its attempt.
-/
def handleDeleteSession (target : Session) (confirmed : Bool) (resp : HttpResp Unit)
    (s : ClientState) : StepResult :=
  if confirmed then
    let okState : ClientState :=
      let s1 : ClientState := { s with sessions := s.sessions.filter fun sess => sess.id != target.id }
      if s.activeSessionId = some target.id then
        { s1 with activeSessionId := none, history := [] }
      else s1
    match resp with
    | .success _ => ⟨okState, [ApiCall.deleteSession target.id], []⟩
    | .failure status statusText errText =>
        if status == 204 then ⟨okState, [ApiCall.deleteSession target.id], []⟩
        else
          let msg := failedDeleteSessionMsg status statusText errText
          ⟨{ s with error := jsOr msg "Failed to delete chat session" },
            [ApiCall.deleteSession target.id], [msg]⟩
    | .netError m =>
        ⟨{ s with error := jsOr m "Failed to delete chat session" },
          [ApiCall.deleteSession target.id], [m]⟩
  else ⟨s, [], []⟩

/--
`fetchSessions()`: GET `/sessions/`; on success replace the session list
and, when no session is active and the list is non-empty, make the first
entry active and load its history. Failures are only `console.error`ed —
this handler never writes the user-visible error string itself.
-/
def fetchSessions (resp : HttpResp (List Session)) (msgsResp : HttpResp (List Message))
    (s : ClientState) : StepResult :=
  match resp with
  | .success data =>
      let s1 : ClientState := { s with sessions := data }
      match data with
      | [] => ⟨s1, [ApiCall.listSessions], []⟩
      | first :: _ =>
          if truthyId s.activeSessionId then ⟨s1, [ApiCall.listSessions], []⟩
          else
            let s2 : ClientState := { s1 with activeSessionId := some first.id }
            let r := fetchMessages msgsResp (some first.id) s2
            ⟨r.state, ApiCall.listSessions :: r.calls, r.logs⟩
  | .failure status _ _ => ⟨s, [ApiCall.listSessions], [failedFetchSessionsMsg status]⟩
  | .netError m => ⟨s, [ApiCall.listSessions], [m]⟩

/--
`beginEditMessage(message)`: enter edit mode only when the message exists,
its role is `"user"` and its id is a number; then preload the composer
with the message text.
-/
def beginEditMessage (message : Option Message) (s : ClientState) : ClientState :=
  match message with
  | none => s
  | some m =>
      if m.role != "user" then s
      else
        match m.id with
        | none => s
        | some n =>
            { s with editingId := some n, editingOriginalText := m.text, chatInput := m.text }

/-- `cancelEdit()`: drop the edit pointer and reset the composer without
any network call. -/
def cancelEdit (s : ClientState) : ClientState :=
  { s with editingId := none, editingOriginalText := "", chatInput := "" }

/-- A message is rendered in edit state when the edit pointer is set and
points at its id. -/
def inEditState (s : ClientState) (m : Message) : Bool :=
  s.editingId.isSome && m.id == s.editingId

/-- Whether a call trace contains a history reload (GET `/messages/`). -/
def hasMessagesReload (calls : List ApiCall) : Bool :=
  calls.any fun c =>
    match c with
    | ApiCall.listMessages _ => true
    | _ => false

/-- The error message a failed chat POST produces before the `||` fallback:
the thrown template for a non-2xx response, `err.message` for a network
error. -/
def chatFailureMessage : HttpResp Unit → String
  | HttpResp.failure status statusText errText => chatRequestFailedMsg status statusText errText
  | HttpResp.netError m => m
  | HttpResp.success _ => ""

/-- A concrete state in edit mode on message 7 of session 1, with the
edited replacement text in the composer. -/
def editStateEx : ClientState :=
  ⟨[⟨1, none, none⟩], some 1,
    [⟨some 7, 1, "user", "old question", none⟩, ⟨some 8, 1, "assistant", "old reply", none⟩],
    false, "", "edited question", false, some 7, "old question"⟩

/-- The server's PATCH response for the edit in `editStateEx`. -/
def updatedEx : Message := ⟨some 7, 1, "user", "edited question", none⟩

/-- Whether a DELETE outcome is accepted by the handlers: HTTP success or
status 204 ("no content"). -/
def deleteAccepted {α : Type} : HttpResp α → Bool
  | .success _ => true
  | .failure status _ _ => status == 204
  | .netError _ => false

/-- A concrete state carrying a stale user-visible error, active on session
1, with session 2 also listed. -/
def staleErrorState : ClientState :=
  ⟨[⟨1, none, none⟩, ⟨2, none, none⟩], some 1, [], false, "previous failure", "", false, none, ""⟩

/-- A concrete state with composer text `"Hi"`, active on session 1. -/
def activeState : ClientState :=
  ⟨[⟨1, none, none⟩], some 1, [], false, "", "Hi", false, none, ""⟩

/-- A concrete fresh state: no sessions, composer text `"Hello"`. -/
def freshState : ClientState :=
  ⟨[], none, [], false, "", "Hello", false, none, ""⟩

/-- The server's canonical conversation for session 1 after `"Hello"`. -/
def helloHistory : List Message :=
  [⟨some 1, 1, "user", "Hello", none⟩, ⟨some 2, 1, "assistant", "Hi there!", none⟩]

/-- `jsOr` never yields the empty string when its fallback is non-empty. -/
theorem jsOr_ne_empty (a b : String) (hb : b ≠ "") : jsOr a b ≠ "" := by
  unfold jsOr
  split
  · exact hb
  · assumption

/-- A failed chat POST sets the error, resets `chatLoading` and touches
nothing else; the only call issued is the chat POST itself. -/
theorem sendChatAndReload_not_ok (chatResp : HttpResp Unit)
    (msgsResp : HttpResp (List Message)) (sessionId : Int) (preCalls : List ApiCall)
    (s : ClientState) (hcf : isOk chatResp = false) :
    sendChatAndReload chatResp msgsResp sessionId preCalls s
      = ⟨{ s with error := jsOr (chatFailureMessage chatResp) "Failed to send chat message",
                  chatLoading := false },
          preCalls ++ [ApiCall.chat s.chatInput sessionId], []⟩ := by
  cases chatResp <;> simp_all [sendChatAndReload, chatFailureMessage, isOk]

/-- C1: after a successful send (chat POST ok and history GET ok), the local
history equals exactly the list the server returned for that session and the
composer is cleared; when the send fails (session creation or the chat POST
fails), the composer text and the history are left unchanged. -/
theorem send_success_syncs_history_and_clears_composer
    (s : ClientState) (c : Session) (createResp : HttpResp Session)
    (chatFail : HttpResp Unit) (msgsResp : HttpResp (List Message)) (ms : List Message)
    (hin : isBlank s.chatInput = false) (hcf : isOk chatFail = false) :
    (truthyId s.activeSessionId = true →
      (sendNewChatMessage createResp (HttpResp.success ()) (HttpResp.success ms) s).state.history
          = ms
      ∧ (sendNewChatMessage createResp (HttpResp.success ()) (HttpResp.success ms)
          s).state.chatInput = "")
    ∧ (truthyId s.activeSessionId = false → c.id ≠ 0 →
      (sendNewChatMessage (HttpResp.success c) (HttpResp.success ()) (HttpResp.success ms)
          s).state.history = ms
      ∧ (sendNewChatMessage (HttpResp.success c) (HttpResp.success ()) (HttpResp.success ms)
          s).state.chatInput = "")
    ∧ ((sendNewChatMessage createResp chatFail msgsResp s).state.chatInput = s.chatInput
      ∧ (sendNewChatMessage createResp chatFail msgsResp s).state.history = s.history) := by
  refine ⟨?_, ?_, ?_⟩
  · intro ha
    cases hs : s.activeSessionId with
    | none => simp [hs, truthyId] at ha
    | some n =>
        have hn : (n != 0) = true := by simpa [truthyId, hs] using ha
        simp [sendNewChatMessage, sendChatAndReload, fetchMessages, hin, ha, hs, truthyId, hn]
  · intro ha hc
    have hc' : (c.id != 0) = true := by simpa using hc
    cases hs : s.activeSessionId with
    | none =>
        simp [sendNewChatMessage, sendChatAndReload, fetchMessages, hin, hs, truthyId, hc']
    | some n =>
        have hn : n = 0 := by
          by_contra hn
          simp [truthyId, hs, hn] at ha
        subst hn
        simp [sendNewChatMessage, sendChatAndReload, fetchMessages, hin, hs, truthyId, hc']
  · cases hs : s.activeSessionId with
    | none =>
        cases createResp <;>
          simp [sendNewChatMessage, sendChatAndReload_not_ok, hcf, hin, hs, truthyId]
    | some n =>
        by_cases hn : n = 0
        · subst hn
          cases createResp <;>
            simp [sendNewChatMessage, sendChatAndReload_not_ok, hcf, hin, hs, truthyId]
        · simp [sendNewChatMessage, sendChatAndReload_not_ok, hcf, hin, hs, truthyId, hn]

/-- C1 witness: from `activeState`, a fully successful send makes the
history exactly the server list and clears the composer, while a failed
chat POST leaves the composer text `"Hi"` and the history untouched. -/
theorem send_success_syncs_history_witness :
    isBlank "Hi" = false
    ∧ isOk (HttpResp.failure 500 "Internal Server Error" "boom" : HttpResp Unit) = false
    ∧ ((sendNewChatMessage (HttpResp.netError "down") (HttpResp.success ())
          (HttpResp.success helloHistory) activeState).state.history = helloHistory
      ∧ (sendNewChatMessage (HttpResp.netError "down") (HttpResp.success ())
          (HttpResp.success helloHistory) activeState).state.chatInput = "")
    ∧ ((sendNewChatMessage (HttpResp.netError "down")
          (HttpResp.failure 500 "Internal Server Error" "boom")
          (HttpResp.success []) activeState).state.chatInput = "Hi"
      ∧ (sendNewChatMessage (HttpResp.netError "down")
          (HttpResp.failure 500 "Internal Server Error" "boom")
          (HttpResp.success []) activeState).state.history = []) :=
  ⟨by decide, by decide,
   (send_success_syncs_history_and_clears_composer activeState ⟨2, none, none⟩
      (HttpResp.netError "down") (HttpResp.failure 500 "Internal Server Error" "boom")
      (HttpResp.success []) helloHistory (by decide) (by decide)).1 (by decide),
   (send_success_syncs_history_and_clears_composer activeState ⟨2, none, none⟩
      (HttpResp.netError "down") (HttpResp.failure 500 "Internal Server Error" "boom")
      (HttpResp.success []) helloHistory (by decide) (by decide)).2.2⟩

/-- C2: a send with non-blank text and no active session first creates a
session, then POSTs the chat message to it, then reloads its history — in
that order and nothing else; the created session becomes active and is
prepended to the list, history becomes the server's returned array, and the
composer is cleared. -/
theorem send_without_active_session_creates_then_sends
    (s : ClientState) (created : Session) (ms : List Message)
    (hin : isBlank s.chatInput = false) (hna : truthyId s.activeSessionId = false)
    (hcid : created.id ≠ 0) :
    (sendNewChatMessage (HttpResp.success created) (HttpResp.success ())
        (HttpResp.success ms) s).calls
      = [ApiCall.createSession, ApiCall.chat s.chatInput created.id,
          ApiCall.listMessages created.id]
    ∧ (sendNewChatMessage (HttpResp.success created) (HttpResp.success ())
        (HttpResp.success ms) s).state.activeSessionId = some created.id
    ∧ (sendNewChatMessage (HttpResp.success created) (HttpResp.success ())
        (HttpResp.success ms) s).state.sessions = created :: s.sessions
    ∧ (sendNewChatMessage (HttpResp.success created) (HttpResp.success ())
        (HttpResp.success ms) s).state.history = ms
    ∧ (sendNewChatMessage (HttpResp.success created) (HttpResp.success ())
        (HttpResp.success ms) s).state.chatInput = "" := by
  have hc' : (created.id != 0) = true := by simpa using hcid
  cases hs : s.activeSessionId with
  | none =>
      simp [sendNewChatMessage, sendChatAndReload, fetchMessages, hin, hs, truthyId, hc']
  | some n =>
      have hn : n = 0 := by
        by_contra hn
        simp [truthyId, hs, hn] at hna
      subst hn
      simp [sendNewChatMessage, sendChatAndReload, fetchMessages, hin, hs, truthyId, hc']

/-- C2 witness: the spec's example scenario — no sessions, user sends
`"Hello"`, server assigns session id 1: exactly one create POST, one chat
POST with `{message: "Hello", session: 1}` and one messages GET happen, and
the final state is active session 1, session list `[1]`, history as
returned, empty composer. -/
theorem send_creates_then_sends_witness :
    isBlank "Hello" = false
    ∧ truthyId freshState.activeSessionId = false
    ∧ ((sendNewChatMessage (HttpResp.success ⟨1, none, none⟩) (HttpResp.success ())
          (HttpResp.success helloHistory) freshState).calls
        = [ApiCall.createSession, ApiCall.chat "Hello" 1, ApiCall.listMessages 1]
      ∧ (sendNewChatMessage (HttpResp.success ⟨1, none, none⟩) (HttpResp.success ())
          (HttpResp.success helloHistory) freshState).state.activeSessionId = some 1
      ∧ (sendNewChatMessage (HttpResp.success ⟨1, none, none⟩) (HttpResp.success ())
          (HttpResp.success helloHistory) freshState).state.sessions = [⟨1, none, none⟩]
      ∧ (sendNewChatMessage (HttpResp.success ⟨1, none, none⟩) (HttpResp.success ())
          (HttpResp.success helloHistory) freshState).state.history = helloHistory
      ∧ (sendNewChatMessage (HttpResp.success ⟨1, none, none⟩) (HttpResp.success ())
          (HttpResp.success helloHistory) freshState).state.chatInput = "") :=
  ⟨by decide, by decide,
   send_without_active_session_creates_then_sends freshState ⟨1, none, none⟩ helloHistory
     (by decide) (by decide) (by decide)⟩

/-- C3: when the PATCH save succeeds but the regenerate request fails
(non-2xx or network error), the edited text stays spliced into local
history by id, edit mode is cleared (edit pointer reset, composer emptied),
no user-visible error is shown (the failure is only logged); whereas a
failed PATCH save halts the flow: the error is shown, nothing is spliced,
edit mode stays, no regenerate request is issued and nothing is logged. -/
theorem edit_save_regen_failure_asymmetry
    (s : ClientState) (updated : Message) (regenFail : HttpResp Unit)
    (patchFail : HttpResp Message) (msgsResp : HttpResp (List Message))
    (hed : truthyId s.editingId = true) (hin : isBlank s.chatInput = false)
    (hrf : isOk regenFail = false) (hpf : isOk patchFail = false) :
    ((saveEditedMessage (HttpResp.success updated) regenFail msgsResp s).state.history
        = s.history.map (fun m => if m.id = updated.id then updated else m)
      ∧ (saveEditedMessage (HttpResp.success updated) regenFail msgsResp s).state.editingId
        = none
      ∧ (saveEditedMessage (HttpResp.success updated) regenFail msgsResp s).state.chatInput
        = ""
      ∧ (saveEditedMessage (HttpResp.success updated) regenFail msgsResp s).state.error = ""
      ∧ (saveEditedMessage (HttpResp.success updated) regenFail msgsResp s).logs ≠ [])
    ∧ ((saveEditedMessage patchFail regenFail msgsResp s).state.error ≠ ""
      ∧ (saveEditedMessage patchFail regenFail msgsResp s).state.history = s.history
      ∧ (saveEditedMessage patchFail regenFail msgsResp s).state.editingId = s.editingId
      ∧ (saveEditedMessage patchFail regenFail msgsResp s).state.chatInput = s.chatInput
      ∧ (saveEditedMessage patchFail regenFail msgsResp s).calls
        = [ApiCall.patchMessage (s.editingId.getD 0) s.chatInput]
      ∧ (saveEditedMessage patchFail regenFail msgsResp s).logs = []) := by
  cases he : s.editingId with
  | none => simp [he, truthyId] at hed
  | some n =>
      have hn : (n != 0) = true := by simpa [truthyId, he] using hed
      constructor
      · cases regenFail with
        | success _ => simp [isOk] at hrf
        | failure st stx bo =>
            simp [saveEditedMessage, he, truthyId, hn, hin]
        | netError m =>
            simp [saveEditedMessage, he, truthyId, hn, hin]
      · cases patchFail with
        | success _ => simp [isOk] at hpf
        | failure st stx bo =>
            simp [saveEditedMessage, he, truthyId, hn, hin]
            exact jsOr_ne_empty _ _ (by decide)
        | netError m =>
            simp [saveEditedMessage, he, truthyId, hn, hin]
            exact jsOr_ne_empty _ _ (by decide)

/-- C3 witness: editing message 7 of `editStateEx`, the PATCH succeeds and
the regenerate gets a 502 — the edit stays spliced in, edit mode is
cleared, no error is shown and the failure is logged; with a failed PATCH
instead, the error is shown and the flow stops at the PATCH. -/
theorem edit_save_regen_failure_witness :
    truthyId editStateEx.editingId = true
    ∧ isBlank editStateEx.chatInput = false
    ∧ isOk (HttpResp.failure 502 "Bad Gateway" "upstream" : HttpResp Unit) = false
    ∧ isOk (HttpResp.netError "down" : HttpResp Message) = false
    ∧ (((saveEditedMessage (HttpResp.success updatedEx)
            (HttpResp.failure 502 "Bad Gateway" "upstream") (HttpResp.success [])
            editStateEx).state.history
          = [updatedEx, ⟨some 8, 1, "assistant", "old reply", none⟩]
        ∧ (saveEditedMessage (HttpResp.success updatedEx)
            (HttpResp.failure 502 "Bad Gateway" "upstream") (HttpResp.success [])
            editStateEx).state.editingId = none
        ∧ (saveEditedMessage (HttpResp.success updatedEx)
            (HttpResp.failure 502 "Bad Gateway" "upstream") (HttpResp.success [])
            editStateEx).state.chatInput = ""
        ∧ (saveEditedMessage (HttpResp.success updatedEx)
            (HttpResp.failure 502 "Bad Gateway" "upstream") (HttpResp.success [])
            editStateEx).state.error = ""
        ∧ (saveEditedMessage (HttpResp.success updatedEx)
            (HttpResp.failure 502 "Bad Gateway" "upstream") (HttpResp.success [])
            editStateEx).logs ≠ [])
      ∧ ((saveEditedMessage (HttpResp.netError "down")
            (HttpResp.failure 502 "Bad Gateway" "upstream") (HttpResp.success [])
            editStateEx).state.error ≠ ""
        ∧ (saveEditedMessage (HttpResp.netError "down")
            (HttpResp.failure 502 "Bad Gateway" "upstream") (HttpResp.success [])
            editStateEx).state.history
          = [⟨some 7, 1, "user", "old question", none⟩,
              ⟨some 8, 1, "assistant", "old reply", none⟩]
        ∧ (saveEditedMessage (HttpResp.netError "down")
            (HttpResp.failure 502 "Bad Gateway" "upstream") (HttpResp.success [])
            editStateEx).state.editingId = some 7
        ∧ (saveEditedMessage (HttpResp.netError "down")
            (HttpResp.failure 502 "Bad Gateway" "upstream") (HttpResp.success [])
            editStateEx).state.chatInput = "edited question"
        ∧ (saveEditedMessage (HttpResp.netError "down")
            (HttpResp.failure 502 "Bad Gateway" "upstream") (HttpResp.success [])
            editStateEx).calls = [ApiCall.patchMessage 7 "edited question"]
        ∧ (saveEditedMessage (HttpResp.netError "down")
            (HttpResp.failure 502 "Bad Gateway" "upstream") (HttpResp.success [])
            editStateEx).logs = [])) :=
  ⟨by decide, by decide, by decide, by decide,
   edit_save_regen_failure_asymmetry editStateEx updatedEx
     (HttpResp.failure 502 "Bad Gateway" "upstream") (HttpResp.netError "down")
     (HttpResp.success []) (by decide) (by decide) (by decide) (by decide)⟩

/-- C4 counterexample: with a successful PATCH but a failed regenerate, the
flow issues no GET of the messages at all — history is not reloaded from
the server, contradicting the claim that it is reloaded regardless of the
regenerate outcome. -/
theorem edit_regen_failure_skips_reload_cex :
    hasMessagesReload
        (saveEditedMessage (HttpResp.success updatedEx)
          (HttpResp.failure 500 "Internal Server Error" "boom")
          (HttpResp.success []) editStateEx).calls
      = false
    ∧ (saveEditedMessage (HttpResp.success updatedEx)
          (HttpResp.failure 500 "Internal Server Error" "boom")
          (HttpResp.success []) editStateEx).calls
      = [ApiCall.patchMessage 7 "edited question", ApiCall.regenerate (some 7)] := by
  constructor <;> decide

/-- C4 amended: after a successful PATCH save, the history is reloaded from
the server only when the regenerate request succeeds; when the regenerate
fails, no reload request is issued at all. -/
theorem edit_reload_only_on_regen_success
    (s : ClientState) (updated : Message) (msgsResp : HttpResp (List Message))
    (regenFail : HttpResp Unit)
    (hed : truthyId s.editingId = true) (hin : isBlank s.chatInput = false)
    (hsess : updated.session ≠ 0) (hrf : isOk regenFail = false) :
    hasMessagesReload
        (saveEditedMessage (HttpResp.success updated) (HttpResp.success ()) msgsResp s).calls
      = true
    ∧ hasMessagesReload
        (saveEditedMessage (HttpResp.success updated) regenFail msgsResp s).calls
      = false := by
  cases he : s.editingId with
  | none => simp [he, truthyId] at hed
  | some n =>
      have hn : (n != 0) = true := by simpa [truthyId, he] using hed
      have hs' : (updated.session != 0) = true := by simpa using hsess
      constructor
      · cases msgsResp <;>
          simp [saveEditedMessage, fetchMessages, hasMessagesReload, he, truthyId, hn, hin, hs']
      · cases regenFail with
        | success _ => simp [isOk] at hrf
        | failure st stx bo =>
            simp [saveEditedMessage, hasMessagesReload, he, truthyId, hn, hin]
        | netError m =>
            simp [saveEditedMessage, hasMessagesReload, he, truthyId, hn, hin]

/-- C4 witness: same edit flow — the regenerate-success run issues a
history GET, the regenerate-failure run issues none. -/
theorem edit_reload_only_on_regen_success_witness :
    truthyId editStateEx.editingId = true
    ∧ isBlank editStateEx.chatInput = false
    ∧ updatedEx.session ≠ 0
    ∧ isOk (HttpResp.failure 502 "Bad Gateway" "upstream" : HttpResp Unit) = false
    ∧ (hasMessagesReload
          (saveEditedMessage (HttpResp.success updatedEx) (HttpResp.success ())
            (HttpResp.success []) editStateEx).calls = true
      ∧ hasMessagesReload
          (saveEditedMessage (HttpResp.success updatedEx)
            (HttpResp.failure 502 "Bad Gateway" "upstream")
            (HttpResp.success []) editStateEx).calls = false) :=
  ⟨by decide, by decide, by decide, by decide,
   edit_reload_only_on_regen_success editStateEx updatedEx (HttpResp.success [])
     (HttpResp.failure 502 "Bad Gateway" "upstream")
     (by decide) (by decide) (by decide) (by decide)⟩

/-- C5 counterexample: a successful `handleCreateNewChat` from a state in
edit mode (editingId = 5) leaves the `editingId` pointer set — it does not
clear the whole composer state as the claim requires. -/
theorem create_session_keeps_editing_pointer_cex :
    (handleCreateNewChat (HttpResp.success ⟨3, none, none⟩)
        ⟨[], some 1, [], false, "", "draft", false, some 5, "orig"⟩).state.editingId
      = some 5 := by decide

/-- C5 amended: a successful `createSession` prepends the server-returned
session, makes it active, clears `history`, the input text and the error,
but leaves `editingId` and `editingOriginalText` unchanged. -/
theorem create_session_effects (s : ClientState) (created : Session) :
    (handleCreateNewChat (HttpResp.success created) s).state.sessions = created :: s.sessions
    ∧ (handleCreateNewChat (HttpResp.success created) s).state.activeSessionId = some created.id
    ∧ (handleCreateNewChat (HttpResp.success created) s).state.history = []
    ∧ (handleCreateNewChat (HttpResp.success created) s).state.chatInput = ""
    ∧ (handleCreateNewChat (HttpResp.success created) s).state.error = ""
    ∧ (handleCreateNewChat (HttpResp.success created) s).state.editingId = s.editingId
    ∧ (handleCreateNewChat (HttpResp.success created) s).state.editingOriginalText
        = s.editingOriginalText
    ∧ (handleCreateNewChat (HttpResp.success created) s).calls = [ApiCall.createSession] := by
  simp [handleCreateNewChat]

/-- C6: a confirmed, accepted session deletion removes the session from the
list; when it was the active session, the active pointer and the history
are cleared; when it was not, both are left unchanged. -/
theorem delete_session_active_vs_inactive
    (s : ClientState) (target : Session) (resp : HttpResp Unit)
    (hok : deleteAccepted resp = true) :
    (s.activeSessionId = some target.id →
      (handleDeleteSession target true resp s).state.sessions
        = s.sessions.filter (fun sess => sess.id != target.id)
      ∧ (handleDeleteSession target true resp s).state.activeSessionId = none
      ∧ (handleDeleteSession target true resp s).state.history = [])
    ∧ (s.activeSessionId ≠ some target.id →
      (handleDeleteSession target true resp s).state.sessions
        = s.sessions.filter (fun sess => sess.id != target.id)
      ∧ (handleDeleteSession target true resp s).state.activeSessionId = s.activeSessionId
      ∧ (handleDeleteSession target true resp s).state.history = s.history) := by
  cases resp with
  | success _ =>
      constructor
      · intro h
        simp [handleDeleteSession, h]
      · intro h
        simp [handleDeleteSession, h]
  | failure st stx bo =>
      have h204 : (st == 204) = true := by simpa [deleteAccepted] using hok
      constructor
      · intro h
        simp [handleDeleteSession, h, h204]
      · intro h
        simp [handleDeleteSession, h, h204]
  | netError m => simp [deleteAccepted] at hok

/-- C6 witness: from `staleErrorState` (active session 1, sessions 1 and
2), a confirmed 204-deletion of session 1 removes it and clears the active
pointer and history, while deleting session 2 leaves both untouched. -/
theorem delete_session_active_vs_inactive_witness :
    deleteAccepted (HttpResp.failure 204 "No Content" "" : HttpResp Unit) = true
    ∧ ((handleDeleteSession ⟨1, none, none⟩ true (HttpResp.failure 204 "No Content" "")
          staleErrorState).state.sessions = [⟨2, none, none⟩]
      ∧ (handleDeleteSession ⟨1, none, none⟩ true (HttpResp.failure 204 "No Content" "")
          staleErrorState).state.activeSessionId = none
      ∧ (handleDeleteSession ⟨1, none, none⟩ true (HttpResp.failure 204 "No Content" "")
          staleErrorState).state.history = [])
    ∧ ((handleDeleteSession ⟨2, none, none⟩ true (HttpResp.failure 204 "No Content" "")
          staleErrorState).state.sessions = [⟨1, none, none⟩]
      ∧ (handleDeleteSession ⟨2, none, none⟩ true (HttpResp.failure 204 "No Content" "")
          staleErrorState).state.activeSessionId = some 1
      ∧ (handleDeleteSession ⟨2, none, none⟩ true (HttpResp.failure 204 "No Content" "")
          staleErrorState).state.history = []) :=
  ⟨by decide,
   (delete_session_active_vs_inactive staleErrorState ⟨1, none, none⟩
      (HttpResp.failure 204 "No Content" "") (by decide)).1 (by decide),
   (delete_session_active_vs_inactive staleErrorState ⟨2, none, none⟩
      (HttpResp.failure 204 "No Content" "") (by decide)).2 (by decide)⟩

/-- C7 counterexample: the session-delete handler does not clear the
user-visible error string at the start of its attempt — after a confirmed,
successful deletion of (non-active) session 2, the stale error is still
displayed. -/
theorem delete_session_keeps_stale_error_cex :
    (handleDeleteSession ⟨2, none, none⟩ true (HttpResp.success ()) staleErrorState).state.error
      = "previous failure" := by decide

/-- C7 amended: create-session, load-history, send, edit-save and
delete-message clear the user-visible error string at the start of their
attempt (their entire outcome is independent of the prior error), but the
session-delete handler does not (a successful delete keeps the prior error
on screen), and list-sessions neither clears nor sets it on failure. -/
theorem error_clearing_discipline
    (s : ClientState) (e : String) (sid : Option Int) (n : Int) (target : Session)
    (createResp : HttpResp Session) (chatResp : HttpResp Unit)
    (msgsResp : HttpResp (List Message)) (patchResp : HttpResp Message)
    (delResp : HttpResp Unit) (listResp : HttpResp (List Session))
    (hin : isBlank s.chatInput = false) (hed : truthyId s.editingId = true)
    (hsid : truthyId sid = true) (hlf : isOk listResp = false)
    (hna : s.activeSessionId ≠ some target.id) :
    (handleCreateNewChat createResp { s with error := e }
      = handleCreateNewChat createResp { s with error := "" })
    ∧ (fetchMessages msgsResp sid { s with error := e }
      = fetchMessages msgsResp sid { s with error := "" })
    ∧ (sendNewChatMessage createResp chatResp msgsResp { s with error := e }
      = sendNewChatMessage createResp chatResp msgsResp { s with error := "" })
    ∧ (saveEditedMessage patchResp chatResp msgsResp { s with error := e }
      = saveEditedMessage patchResp chatResp msgsResp { s with error := "" })
    ∧ (handleDeleteMessage (some n) true delResp { s with error := e }
      = handleDeleteMessage (some n) true delResp { s with error := "" })
    ∧ ((handleDeleteSession target true (HttpResp.success ()) { s with error := e }).state.error
      = e)
    ∧ ((fetchSessions listResp msgsResp { s with error := e }).state.error = e) := by
  refine ⟨?_, ?_, ?_, ?_, ?_, ?_, ?_⟩
  · cases createResp <;> simp [handleCreateNewChat]
  · cases hm : sid with
    | none => simp [hm, truthyId] at hsid
    | some k =>
        have hk : (k != 0) = true := by simpa [truthyId, hm] using hsid
        cases msgsResp <;> simp [fetchMessages, truthyId, hk]
  · cases hs : s.activeSessionId with
    | none =>
        cases createResp <;> cases chatResp <;> cases msgsResp <;>
          simp [sendNewChatMessage, sendChatAndReload, fetchMessages, hin, hs, truthyId]
    | some m =>
        by_cases hm : m = 0
        · subst hm
          cases createResp <;> cases chatResp <;> cases msgsResp <;>
            simp [sendNewChatMessage, sendChatAndReload, fetchMessages, hin, hs, truthyId]
        · cases chatResp <;> cases msgsResp <;>
            simp [sendNewChatMessage, sendChatAndReload, fetchMessages, hin, hs, truthyId, hm]
  · cases he : s.editingId with
    | none => simp [he, truthyId] at hed
    | some k =>
        have hk : (k != 0) = true := by simpa [truthyId, he] using hed
        cases patchResp <;> cases chatResp <;> cases msgsResp <;>
          simp [saveEditedMessage, fetchMessages, he, truthyId, hk, hin]
  · cases delResp <;> simp [handleDeleteMessage]
  · simp [handleDeleteSession, hna]
  · cases listResp with
    | success _ => simp [isOk] at hlf
    | failure st stx bo => simp [fetchSessions]
    | netError m => simp [fetchSessions]

/-- C7 witness: from `editStateEx` with a stale error `"stale"`, the five
clearing operations behave identically whether the prior error was
`"stale"` or empty, while a successful session-delete of non-active session
2 keeps `"stale"` on screen and a failed list-sessions leaves it untouched. -/
theorem error_clearing_discipline_witness :
    isBlank editStateEx.chatInput = false
    ∧ truthyId editStateEx.editingId = true
    ∧ truthyId (some 3 : Option Int) = true
    ∧ isOk (HttpResp.netError "down" : HttpResp (List Session)) = false
    ∧ editStateEx.activeSessionId ≠ some (2 : Int)
    ∧ ((handleCreateNewChat (HttpResp.success ⟨4, none, none⟩)
          { editStateEx with error := "stale" }
        = handleCreateNewChat (HttpResp.success ⟨4, none, none⟩)
          { editStateEx with error := "" })
      ∧ (fetchMessages (HttpResp.success []) (some 3) { editStateEx with error := "stale" }
        = fetchMessages (HttpResp.success []) (some 3) { editStateEx with error := "" })
      ∧ (sendNewChatMessage (HttpResp.success ⟨4, none, none⟩) (HttpResp.success ())
          (HttpResp.success []) { editStateEx with error := "stale" }
        = sendNewChatMessage (HttpResp.success ⟨4, none, none⟩) (HttpResp.success ())
          (HttpResp.success []) { editStateEx with error := "" })
      ∧ (saveEditedMessage (HttpResp.success updatedEx) (HttpResp.success ())
          (HttpResp.success []) { editStateEx with error := "stale" }
        = saveEditedMessage (HttpResp.success updatedEx) (HttpResp.success ())
          (HttpResp.success []) { editStateEx with error := "" })
      ∧ (handleDeleteMessage (some 9) true (HttpResp.success ())
          { editStateEx with error := "stale" }
        = handleDeleteMessage (some 9) true (HttpResp.success ())
          { editStateEx with error := "" })
      ∧ ((handleDeleteSession ⟨2, none, none⟩ true (HttpResp.success ())
          { editStateEx with error := "stale" }).state.error = "stale")
      ∧ ((fetchSessions (HttpResp.netError "down") (HttpResp.success [])
          { editStateEx with error := "stale" }).state.error = "stale")) :=
  ⟨by decide, by decide, by decide, by decide, by decide,
   error_clearing_discipline editStateEx "stale" (some 3) 9 ⟨2, none, none⟩
     (HttpResp.success ⟨4, none, none⟩) (HttpResp.success ()) (HttpResp.success [])
     (HttpResp.success updatedEx) (HttpResp.success ()) (HttpResp.netError "down")
     (by decide) (by decide) (by decide) (by decide) (by decide)⟩

/-- C8: a message enters edit mode only when its role is `"user"` and its
id is a number (`beginEditMessage` is a no-op otherwise, including on a
missing message); the edit-save is a no-op unless an edit is in progress
and the replacement text is non-blank; and at most one message is in edit
state at any time. -/
theorem edit_mode_entry_guards (s : ClientState) (m m1 m2 : Message)
    (patchResp : HttpResp Message) (regenResp : HttpResp Unit)
    (msgsResp : HttpResp (List Message))
    (hm : m.role ≠ "user" ∨ m.id = none) :
    beginEditMessage (some m) s = s
    ∧ beginEditMessage none s = s
    ∧ (truthyId s.editingId = false →
        saveEditedMessage patchResp regenResp msgsResp s = ⟨s, [], []⟩)
    ∧ (isBlank s.chatInput = true →
        saveEditedMessage patchResp regenResp msgsResp s = ⟨s, [], []⟩)
    ∧ (inEditState s m1 = true → inEditState s m2 = true → m1.id = m2.id) := by
  refine ⟨?_, rfl, ?_, ?_, ?_⟩
  · cases hm with
    | inl h => simp [beginEditMessage, h]
    | inr h => cases hmid : m.id with
      | none => simp [beginEditMessage, hmid]
      | some k => simp_all
  · intro h
    simp [saveEditedMessage, h]
  · intro h
    by_cases he : truthyId s.editingId = false <;> simp [saveEditedMessage, h, he]
  · intro h1 h2
    simp only [inEditState, Bool.and_eq_true, beq_iff_eq, Option.isSome_iff_exists] at h1 h2
    rw [h1.2, h2.2]

/-- C8 witness: an assistant-role message cannot enter edit mode (state
unchanged); from `activeState` (no edit in progress) the edit-save is a
complete no-op; and two messages in edit state must share their id. -/
theorem edit_mode_entry_guards_witness :
    ((⟨some 3, 1, "assistant", "reply", none⟩ : Message).role ≠ "user"
      ∨ (⟨some 3, 1, "assistant", "reply", none⟩ : Message).id = none)
    ∧ (beginEditMessage (some ⟨some 3, 1, "assistant", "reply", none⟩) activeState = activeState
      ∧ beginEditMessage none activeState = activeState
      ∧ (truthyId activeState.editingId = false →
          saveEditedMessage (HttpResp.netError "down") (HttpResp.success ())
            (HttpResp.success []) activeState = ⟨activeState, [], []⟩)
      ∧ (isBlank activeState.chatInput = true →
          saveEditedMessage (HttpResp.netError "down") (HttpResp.success ())
            (HttpResp.success []) activeState = ⟨activeState, [], []⟩)
      ∧ (inEditState activeState ⟨some 3, 1, "assistant", "reply", none⟩ = true →
          inEditState activeState ⟨some 4, 1, "user", "q", none⟩ = true →
          (⟨some 3, 1, "assistant", "reply", none⟩ : Message).id
            = (⟨some 4, 1, "user", "q", none⟩ : Message).id)) :=
  ⟨Or.inl (by decide),
   edit_mode_entry_guards activeState ⟨some 3, 1, "assistant", "reply", none⟩
     ⟨some 3, 1, "assistant", "reply", none⟩ ⟨some 4, 1, "user", "q", none⟩
     (HttpResp.netError "down") (HttpResp.success ()) (HttpResp.success [])
     (Or.inl (by decide))⟩

/-- C9: blank or whitespace-only composer text makes `sendNewChatMessage` a
complete no-op: no API call, no log line, and the state (history, sessions,
active pointer, composer, error) is returned unchanged. -/
theorem send_blank_is_noop (s : ClientState) (createResp : HttpResp Session)
    (chatResp : HttpResp Unit) (msgsResp : HttpResp (List Message))
    (hb : isBlank s.chatInput = true) :
    sendNewChatMessage createResp chatResp msgsResp s = ⟨s, [], []⟩ := by
  simp [sendNewChatMessage, hb]

/-- C9 witness: sending with a whitespace-only composer text changes nothing. -/
theorem send_blank_is_noop_witness :
    isBlank "   " = true ∧
      sendNewChatMessage (HttpResp.success ⟨1, none, none⟩) (HttpResp.success ())
          (HttpResp.success []) ⟨[], none, [], false, "", "   ", false, none, ""⟩
        = ⟨⟨[], none, [], false, "", "   ", false, none, ""⟩, [], []⟩ :=
  ⟨by decide,
   send_blank_is_noop ⟨[], none, [], false, "", "   ", false, none, ""⟩
     (HttpResp.success ⟨1, none, none⟩) (HttpResp.success ()) (HttpResp.success [])
     (by decide)⟩

/-- C10: when no session is active, a send whose session-creation POST
succeeds but whose chat POST fails leaves the newly created session in the
list and active, keeps the composer text and the history unchanged, and
surfaces the chat failure as the user-visible error; no history GET is
issued. -/
theorem create_then_send_not_atomic
    (s : ClientState) (created : Session) (chatFail : HttpResp Unit)
    (msgsResp : HttpResp (List Message))
    (hin : isBlank s.chatInput = false) (hna : truthyId s.activeSessionId = false)
    (hcf : isOk chatFail = false) :
    (sendNewChatMessage (HttpResp.success created) chatFail msgsResp s).state.sessions
      = created :: s.sessions
    ∧ (sendNewChatMessage (HttpResp.success created) chatFail msgsResp s).state.activeSessionId
      = some created.id
    ∧ (sendNewChatMessage (HttpResp.success created) chatFail msgsResp s).state.chatInput
      = s.chatInput
    ∧ (sendNewChatMessage (HttpResp.success created) chatFail msgsResp s).state.history
      = s.history
    ∧ (sendNewChatMessage (HttpResp.success created) chatFail msgsResp s).state.error
      = jsOr (chatFailureMessage chatFail) "Failed to send chat message"
    ∧ (sendNewChatMessage (HttpResp.success created) chatFail msgsResp s).state.error ≠ ""
    ∧ (sendNewChatMessage (HttpResp.success created) chatFail msgsResp s).calls
      = [ApiCall.createSession, ApiCall.chat s.chatInput created.id] := by
  have hne : jsOr (chatFailureMessage chatFail) "Failed to send chat message" ≠ "" :=
    jsOr_ne_empty _ _ (by decide)
  cases hs : s.activeSessionId with
  | none =>
      simp [sendNewChatMessage, sendChatAndReload_not_ok, hcf, hin, hs, truthyId, hne]
  | some n =>
      have hn : n = 0 := by
        by_contra hn
        simp [truthyId, hs, hn] at hna
      subst hn
      simp [sendNewChatMessage, sendChatAndReload_not_ok, hcf, hin, hs, truthyId, hne]

/-- C10 witness: from `freshState`, session creation succeeds (id 1) but
the chat POST gets a 503 — the new session stays listed and active, the
composer keeps `"Hello"`, the history stays empty, the chat failure text is
the displayed error, and no messages GET was issued. -/
theorem create_then_send_not_atomic_witness :
    isBlank "Hello" = false
    ∧ truthyId freshState.activeSessionId = false
    ∧ isOk (HttpResp.failure 503 "Service Unavailable" "overloaded" : HttpResp Unit) = false
    ∧ ((sendNewChatMessage (HttpResp.success ⟨1, none, none⟩)
          (HttpResp.failure 503 "Service Unavailable" "overloaded")
          (HttpResp.success []) freshState).state.sessions = [⟨1, none, none⟩]
      ∧ (sendNewChatMessage (HttpResp.success ⟨1, none, none⟩)
          (HttpResp.failure 503 "Service Unavailable" "overloaded")
          (HttpResp.success []) freshState).state.activeSessionId = some 1
      ∧ (sendNewChatMessage (HttpResp.success ⟨1, none, none⟩)
          (HttpResp.failure 503 "Service Unavailable" "overloaded")
          (HttpResp.success []) freshState).state.chatInput = "Hello"
      ∧ (sendNewChatMessage (HttpResp.success ⟨1, none, none⟩)
          (HttpResp.failure 503 "Service Unavailable" "overloaded")
          (HttpResp.success []) freshState).state.history = []
      ∧ (sendNewChatMessage (HttpResp.success ⟨1, none, none⟩)
          (HttpResp.failure 503 "Service Unavailable" "overloaded")
          (HttpResp.success []) freshState).state.error
        = jsOr (chatFailureMessage (HttpResp.failure 503 "Service Unavailable" "overloaded"))
            "Failed to send chat message"
      ∧ (sendNewChatMessage (HttpResp.success ⟨1, none, none⟩)
          (HttpResp.failure 503 "Service Unavailable" "overloaded")
          (HttpResp.success []) freshState).state.error ≠ ""
      ∧ (sendNewChatMessage (HttpResp.success ⟨1, none, none⟩)
          (HttpResp.failure 503 "Service Unavailable" "overloaded")
          (HttpResp.success []) freshState).calls
        = [ApiCall.createSession, ApiCall.chat "Hello" 1]) :=
  ⟨by decide, by decide, by decide,
   create_then_send_not_atomic freshState ⟨1, none, none⟩
     (HttpResp.failure 503 "Service Unavailable" "overloaded") (HttpResp.success [])
     (by decide) (by decide) (by decide)⟩

end ChatClient
